import Mathlib

/-!
Verification development for the ray-tracer kernel (jcmorrow/ray_tracer).

The Rust sources are shallowly embedded: every f64 value is modelled by an
exact rational number, so each arithmetic expression of the source is
translated literally over the rationals.  Square roots appear in the source
only through f64::sqrt; they are modelled by a rational square root that is
exact on perfect squares, and every concrete scenario evaluated below only
takes square roots of perfect squares, where the model and IEEE arithmetic
agree exactly.  All definitions are executable.
-/

set_option maxRecDepth 200000

attribute [local semireducible] Rat.add Rat.mul Rat.inv Rat.sub Rat.ofScientific

namespace RayTracer

/-- EPSILON from utilities.rs: the tolerance used by every approximate
floating comparison in the kernel. -/
def EPSILON : ℚ := 0.00001

/-- Model of utilities.rs equal: absolute difference below EPSILON. -/
def equalQ (a b : ℚ) : Bool := |a - b| < EPSILON

/-- Model of utilities.rs clamp. -/
def clampQ (number mn mx : ℚ) : ℚ :=
  if number > mx then mx else if number < mn then mn else number

/-- Fueled binary search for the integer square root, maintaining the
invariant that lo squared is at most n and n is below hi squared; written
with explicit fuel so that kernel reduction can evaluate it. -/
def natSqrtAux (n : ℕ) : ℕ → ℕ → ℕ → ℕ
  | 0, lo, _ => lo
  | fuel + 1, lo, hi =>
    let mid := (lo + hi) / 2
    if mid = lo then lo
    else if mid * mid ≤ n then natSqrtAux n fuel mid hi
    else natSqrtAux n fuel lo mid

/-- Integer square root (floor), by fueled binary search. -/
def natSqrt (n : ℕ) : ℕ := natSqrtAux n (n + 1) 0 (n + 1)

/-- Model of f64::sqrt, exact on rationals that are squares of rationals
(numerator and denominator of the reduced form both perfect squares); on a
negative argument f64::sqrt returns NaN, modelled here as 0.  Every use in a
theorem below applies it to a perfect square. -/
def sqrtQ (q : ℚ) : ℚ :=
  if q < 0 then 0 else (natSqrt q.num.toNat : ℚ) / (natSqrt q.den : ℚ)

/-- Model of f64::powf, exact when the exponent is a nonnegative integer
(the only exponents the kernel uses are the shininess constants 200 and
300); other exponents, irrational in general, are mapped to 0 and never
reached by the theorems below. -/
def powfQ (base exp : ℚ) : ℚ :=
  if exp.den = 1 ∧ 0 ≤ exp.num then base ^ exp.num.toNat else 0

/-- Stand-in for std f64 INFINITY, used by the source only in the cube and
bounding-box slab tests for a near-zero direction component.  A rational
model has no infinities; this finite sentinel preserves the sign behaviour
of the multiplication in check_axis.  No claim below exercises a cube. -/
def INFINITY : ℚ := 10 ^ 30

/-- Model of utilities.rs min: fold of f64::min seeded with NaN, which the
first element replaces; on an empty list the source yields NaN, modelled
as 0 (never used on an empty list). -/
def minList : List ℚ → ℚ
  | [] => 0
  | x :: xs => xs.foldl min x

/-- Model of utilities.rs max, analogous to minList. -/
def maxList : List ℚ → ℚ
  | [] => 0
  | x :: xs => xs.foldl max x

/-- Model of f64::round: round half away from zero. -/
def roundQ (q : ℚ) : ℚ :=
  if q < 0 then -(((-q) + 1/2).floor : ℚ) else ((q + 1/2).floor : ℚ)

/-- Model of the f64 remainder x % 2 for nonnegative x (the only use, in
the checker pattern, takes it of an absolute value). -/
def mod2Q (q : ℚ) : ℚ := q - 2 * ((q / 2).floor : ℚ)

/-- Tuple from point/mod.rs: a point when w = 1, a vector when w = 0. -/
structure Point where
  x : ℚ
  y : ℚ
  z : ℚ
  w : ℚ
  deriving DecidableEq

/-- Constructor point(x, y, z) from point/mod.rs (w = 1). -/
def point (x y z : ℚ) : Point := ⟨x, y, z, 1⟩

/-- Constructor vector(x, y, z) from point/mod.rs (w = 0). -/
def vector (x y z : ℚ) : Point := ⟨x, y, z, 0⟩

namespace Point

/-- Point.add from point/mod.rs. -/
def add (a b : Point) : Point := ⟨a.x + b.x, a.y + b.y, a.z + b.z, a.w + b.w⟩

/-- Point.sub from point/mod.rs. -/
def sub (a b : Point) : Point := ⟨a.x - b.x, a.y - b.y, a.z - b.z, a.w - b.w⟩

/-- Point.multiply_scalar from point/mod.rs. -/
def multiply_scalar (a : Point) (s : ℚ) : Point := ⟨a.x * s, a.y * s, a.z * s, a.w * s⟩

/-- Point.divide_scalar from point/mod.rs. -/
def divide_scalar (a : Point) (s : ℚ) : Point := ⟨a.x / s, a.y / s, a.z / s, a.w / s⟩

/-- Point.dot from point/mod.rs. -/
def dot (a b : Point) : ℚ := a.x * b.x + a.y * b.y + a.z * b.z + a.w * b.w

/-- Point.cross from point/mod.rs. -/
def cross (a b : Point) : Point :=
  ⟨a.y * b.z - a.z * b.y, a.z * b.x - a.x * b.z, a.x * b.y - a.y * b.x, 0⟩

/-- Point.magnitude from point/mod.rs (via the rational square root). -/
def magnitude (a : Point) : ℚ := sqrtQ (a.x ^ 2 + a.y ^ 2 + a.z ^ 2 + a.w ^ 2)

/-- Point.normalize from point/mod.rs. -/
def normalize (a : Point) : Point := a.divide_scalar a.magnitude

/-- Point.equal from point/mod.rs: componentwise epsilon comparison. -/
def equal (a b : Point) : Bool :=
  equalQ a.x b.x && equalQ a.y b.y && equalQ a.z b.z && equalQ a.w b.w

/-- Modelled from the spec: Point.reflect is called by intersection.rs and
material.rs but its definition is missing from the point module in this
snapshot of the sources.  The spec describes the standard mirror
reflection of a vector about a normal, v - normal * 2 * dot(v, normal),
which is the formula the callers and the regression tests rely on. -/
def reflect (v n : Point) : Point := v.sub (n.multiply_scalar (2 * v.dot n))

end Point

/-- Color from color.rs. -/
structure Color where
  red : ℚ
  green : ℚ
  blue : ℚ
  deriving DecidableEq

namespace Color

/-- Color::new. -/
def new (red green blue : ℚ) : Color := ⟨red, green, blue⟩

/-- Color::white. -/
def white : Color := ⟨1, 1, 1⟩

/-- Color::black. -/
def black : Color := ⟨0, 0, 0⟩

/-- Color.add from color.rs. -/
def add (a b : Color) : Color := ⟨a.red + b.red, a.green + b.green, a.blue + b.blue⟩

/-- Color.sub from color.rs. -/
def sub (a b : Color) : Color := ⟨a.red - b.red, a.green - b.green, a.blue - b.blue⟩

/-- Color.hadamard_product from color.rs. -/
def hadamard_product (a b : Color) : Color :=
  ⟨a.red * b.red, a.green * b.green, a.blue * b.blue⟩

/-- Color.multiply_scalar from color.rs. -/
def multiply_scalar (a : Color) (s : ℚ) : Color := ⟨a.red * s, a.green * s, a.blue * s⟩

/-- PartialEq for Color from color.rs: componentwise epsilon comparison. -/
def equal (a b : Color) : Bool :=
  equalQ a.red b.red && equalQ a.green b.green && equalQ a.blue b.blue

end Color

/-- Ray from ray.rs: an origin point and a direction vector. -/
structure Ray where
  origin : Point
  direction : Point
  deriving DecidableEq

/-- Matrix4 from matrix.rs; members is the 4x4 array of the source, as a
list of four rows of four rationals, indexed exactly like the Rust array. -/
structure Matrix4 where
  members : List (List ℚ)
  deriving DecidableEq

/-- Matrix3 from matrix.rs. -/
structure Matrix3 where
  members : List (List ℚ)
  deriving DecidableEq

/-- Matrix2 from matrix.rs. -/
structure Matrix2 where
  members : List (List ℚ)
  deriving DecidableEq

/-- Array indexing members[i][j] of the Rust sources; all source call sites
are in range, so the out-of-range default is never taken. -/
def mget (members : List (List ℚ)) (i j : Nat) : ℚ :=
  ((members.getD i []).getD j 0)

/-- IDENTITY_MATRIX from matrix.rs. -/
def IDENTITY_MATRIX : Matrix4 :=
  ⟨[[1, 0, 0, 0], [0, 1, 0, 0], [0, 0, 1, 0], [0, 0, 0, 1]]⟩

namespace Matrix4

/-- Matrix4.equal from matrix.rs: every entry within EPSILON. -/
def equal (a b : Matrix4) : Bool :=
  ([0, 1, 2, 3] : List Nat).all fun x =>
    ([0, 1, 2, 3] : List Nat).all fun y =>
      equalQ (mget a.members x y) (mget b.members x y)

/-- Matrix4.multiply from matrix.rs. -/
def multiply (a b : Matrix4) : Matrix4 :=
  ⟨([0, 1, 2, 3] : List Nat).map fun row =>
    ([0, 1, 2, 3] : List Nat).map fun col =>
      mget a.members row 0 * mget b.members 0 col
        + mget a.members row 1 * mget b.members 1 col
        + mget a.members row 2 * mget b.members 2 col
        + mget a.members row 3 * mget b.members 3 col⟩

/-- Matrix4.multiply_point from matrix.rs. -/
def multiply_point (m : Matrix4) (p : Point) : Point :=
  ⟨mget m.members 0 0 * p.x + mget m.members 0 1 * p.y + mget m.members 0 2 * p.z
      + mget m.members 0 3 * p.w,
   mget m.members 1 0 * p.x + mget m.members 1 1 * p.y + mget m.members 1 2 * p.z
      + mget m.members 1 3 * p.w,
   mget m.members 2 0 * p.x + mget m.members 2 1 * p.y + mget m.members 2 2 * p.z
      + mget m.members 2 3 * p.w,
   mget m.members 3 0 * p.x + mget m.members 3 1 * p.y + mget m.members 3 2 * p.z
      + mget m.members 3 3 * p.w⟩

/-- Matrix4.transpose from matrix.rs. -/
def transpose (m : Matrix4) : Matrix4 :=
  ⟨([0, 1, 2, 3] : List Nat).map fun x =>
    ([0, 1, 2, 3] : List Nat).map fun y => mget m.members y x⟩

/-- Matrix4.submatrix from matrix.rs.  The source loops over rows and
columns, writing result.members[x][y] = self.members[col][row] for the
surviving indices: the first result index runs over surviving columns and
the second over surviving rows, so the 3x3 result is the transpose of the
conventional minor submatrix, exactly as in the source. -/
def submatrix (m : Matrix4) (not_col not_row : Nat) : Matrix3 :=
  ⟨(([0, 1, 2, 3] : List Nat).filter fun col => col ≠ not_col).map fun col =>
    (([0, 1, 2, 3] : List Nat).filter fun row => row ≠ not_row).map fun row =>
      mget m.members col row⟩

/-- Matrix4::translation as used by world.rs and shape.rs: the identity
with the translation column set, the effect of the source building it from
IDENTITY_MATRIX. -/
def translation (x y z : ℚ) : Matrix4 :=
  ⟨[[1, 0, 0, x], [0, 1, 0, y], [0, 0, 1, z], [0, 0, 0, 1]]⟩

/-- Matrix4::scaling as used by world.rs and shape.rs: the identity with
the diagonal set. -/
def scaling (x y z : ℚ) : Matrix4 :=
  ⟨[[x, 0, 0, 0], [0, y, 0, 0], [0, 0, z, 0], [0, 0, 0, 1]]⟩

end Matrix4

namespace Matrix2

/-- Matrix2.determinant from matrix.rs. -/
def determinant (m : Matrix2) : ℚ :=
  mget m.members 0 0 * mget m.members 1 1 - mget m.members 1 0 * mget m.members 0 1

end Matrix2

namespace Matrix3

/-- Matrix3.submatrix from matrix.rs, with the same transposed layout as
Matrix4.submatrix. -/
def submatrix (m : Matrix3) (not_col not_row : Nat) : Matrix2 :=
  ⟨(([0, 1, 2] : List Nat).filter fun col => col ≠ not_col).map fun col =>
    (([0, 1, 2] : List Nat).filter fun row => row ≠ not_row).map fun row =>
      mget m.members col row⟩

/-- Matrix3.minor from matrix.rs. -/
def minor (m : Matrix3) (col row : Nat) : ℚ := (m.submatrix col row).determinant

/-- Matrix3.cofactor from matrix.rs.  The source condition is written
col + row % 2 == 0, which by Rust operator precedence is
col + (row % 2) == 0, not (col + row) % 2 == 0. -/
def cofactor (m : Matrix3) (col row : Nat) : ℚ :=
  let minor := m.minor col row
  if col + row % 2 = 0 then minor else minor * (-1)

/-- Matrix3.determinant from matrix.rs: expansion with members[0][i] and
cofactor(0, i). -/
def determinant (m : Matrix3) : ℚ :=
  ([0, 1, 2] : List Nat).foldl (fun result i =>
    result + mget m.members 0 i * m.cofactor 0 i) 0

end Matrix3

namespace Matrix4

/-- Matrix4.minor from matrix.rs. -/
def minor (m : Matrix4) (col row : Nat) : ℚ := (m.submatrix col row).determinant

/-- Matrix4.cofactor from matrix.rs, with the parenthesised condition
(col + row) % 2 == 0 of the source. -/
def cofactor (m : Matrix4) (col row : Nat) : ℚ :=
  let minor := m.minor col row
  if (col + row) % 2 = 0 then minor else minor * (-1)

/-- Matrix4.determinant from matrix.rs. -/
def determinant (m : Matrix4) : ℚ :=
  ([0, 1, 2, 3] : List Nat).foldl (fun result i =>
    result + mget m.members 0 i * m.cofactor 0 i) 0

/-- Matrix4.invertible from matrix.rs: an exact comparison of the
determinant with zero, not an epsilon test. -/
def invertible (m : Matrix4) : Bool := m.determinant ≠ 0

/-- Matrix4.inverse from matrix.rs; the source panics on a non-invertible
matrix, modelled by none. -/
def inverse (m : Matrix4) : Option Matrix4 :=
  if !m.invertible then none
  else
    let det := m.determinant
    some ⟨([0, 1, 2, 3] : List Nat).map fun row =>
      ([0, 1, 2, 3] : List Nat).map fun col => m.cofactor col row / det⟩

/-- Inverse as used by the geometry call sites, which in the source call
inverse directly and propagate the panic; every transform in the scenes
below is invertible, so the default branch is never taken there. -/
def inverseD (m : Matrix4) : Matrix4 := (m.inverse).getD IDENTITY_MATRIX

end Matrix4

/-- PatternableType from patternable.rs. -/
inductive PatternableType where
  | Solid
  | Checker
  | Gradient
  deriving DecidableEq

/-- Patternable from patternable.rs. -/
structure Patternable where
  color : Color
  patternable_type : PatternableType
  secondary : Color
  transform : Matrix4
  deriving DecidableEq

namespace Patternable

/-- Patternable::solid from patternable.rs. -/
def solid (color : Color) : Patternable :=
  ⟨color, PatternableType.Solid, Color.white, IDENTITY_MATRIX⟩

/-- Patternable::gradient from patternable.rs. -/
def gradient (color secondary : Color) : Patternable :=
  ⟨color, PatternableType.Gradient, secondary, IDENTITY_MATRIX⟩

/-- Patternable::checker from patternable.rs. -/
def checker (color secondary : Color) : Patternable :=
  ⟨color, PatternableType.Checker, secondary, IDENTITY_MATRIX⟩

/-- Patternable.color_at_solid from patternable.rs. -/
def color_at_solid (p : Patternable) (_point : Point) : Color := p.color

/-- Patternable.color_at_gradient from patternable.rs. -/
def color_at_gradient (p : Patternable) (pt : Point) : Color :=
  let difference := p.secondary.sub p.color
  p.color.add (difference.multiply_scalar (pt.x - (pt.x.floor : ℚ)))

/-- Patternable.color_at_checker from patternable.rs. -/
def color_at_checker (p : Patternable) (pt : Point) : Color :=
  let sum := roundQ pt.x + roundQ pt.y + roundQ pt.z
  if equalQ (mod2Q |sum|) 0 then p.color else p.secondary

/-- Patternable.color_at dispatch from patternable.rs. -/
def color_at (p : Patternable) (pt : Point) : Color :=
  match p.patternable_type with
  | PatternableType.Solid => p.color_at_solid pt
  | PatternableType.Gradient => p.color_at_gradient pt
  | PatternableType.Checker => p.color_at_checker pt

end Patternable

/-- Material as used by world.rs, shape.rs and intersection.rs.  The copy
of material.rs in this snapshot predates the transparency and
refractive_index fields that those files read and construct; the two
fields are therefore included here with the defaults the spec records for
them (transparency 0, refractive index 1), and everything else follows
material.rs. -/
structure Material where
  ambient : ℚ
  diffuse : ℚ
  pattern : Patternable
  reflective : ℚ
  refractive_index : ℚ
  shininess : ℚ
  specular : ℚ
  transparency : ℚ
  deriving DecidableEq

namespace Material

/-- Material::new from material.rs, extended with the spec defaults for
the two fields missing there (transparency 0, refractive index 1). -/
def new : Material :=
  { ambient := 0.1
    diffuse := 0.9
    pattern := Patternable.solid Color.white
    reflective := 0.0
    refractive_index := 1.0
    shininess := 200.0
    specular := 0.9
    transparency := 0.0 }

/-- Material.equal from material.rs: only ambient, diffuse, shininess and
specular are compared. -/
def equal (a b : Material) : Bool :=
  equalQ a.ambient b.ambient && equalQ a.diffuse b.diffuse
    && equalQ a.shininess b.shininess && equalQ a.specular b.specular

end Material

/-- IntersectableType from intersectable.rs. -/
inductive IntersectableType where
  | Cube
  | Group
  | Plane
  | Sphere
  | Triangle
  deriving DecidableEq

/-- Intersectable from intersectable.rs, without the children list: no
claim involves a Group, and in the dispatch functions of the source the
Group arm either falls into the wildcard (local_intersect, local_normal_at)
or is never exercised by the scenes below. -/
structure Intersectable where
  intersectable_type : IntersectableType
  e1 : Point
  e2 : Point
  normal : Point
  p1 : Point
  p2 : Point
  p3 : Point
  deriving DecidableEq

namespace Intersectable

/-- Intersectable::sphere from intersectable.rs. -/
def sphere : Intersectable :=
  ⟨IntersectableType.Sphere, point 0 0 0, point 0 0 0, point 0 0 0,
    point 0 0 0, point 0 0 0, point 0 0 0⟩

/-- Intersectable::plane from intersectable.rs. -/
def plane : Intersectable :=
  ⟨IntersectableType.Plane, point 0 0 0, point 0 0 0, point 0 0 0,
    point 0 0 0, point 0 0 0, point 0 0 0⟩

/-- Intersectable::cube from intersectable.rs. -/
def cube : Intersectable :=
  ⟨IntersectableType.Cube, point 0 0 0, point 0 0 0, point 0 0 0,
    point 0 0 0, point 0 0 0, point 0 0 0⟩

/-- Intersectable::triangle from intersectable.rs: precomputes the edge
vectors e1 = p2 - p1 and e2 = p3 - p1 and the normalized face normal. -/
def triangle (p1 p2 p3 : Point) : Intersectable :=
  let e1 := p2.sub p1
  let e2 := p3.sub p1
  ⟨IntersectableType.Triangle, e1, e2, (e1.cross e2).normalize, p1, p2, p3⟩

/-- Intersectable::group from intersectable.rs (children not modelled). -/
def group : Intersectable :=
  ⟨IntersectableType.Group, point 0 0 0, point 0 0 0, point 0 0 0,
    point 0 0 0, point 0 0 0, point 0 0 0⟩

/-- Intersectable.local_normal_at_sphere from intersectable.rs. -/
def local_normal_at_sphere (_i : Intersectable) (local_point : Point) : Point :=
  local_point.sub (point 0 0 0)

/-- Intersectable.local_normal_at_plane from intersectable.rs: note the
source returns point(0, 1, 0), a tuple with w = 1. -/
def local_normal_at_plane (_i : Intersectable) (_local_point : Point) : Point :=
  point 0 1 0

/-- Intersectable.local_normal_at_cube from intersectable.rs. -/
def local_normal_at_cube (_i : Intersectable) (local_point : Point) : Point :=
  let maxc := maxList [|local_point.x|, |local_point.y|, |local_point.z|]
  if maxc = |local_point.x| then vector local_point.x 0 0
  else if maxc = |local_point.y| then vector 0 local_point.y 0
  else vector 0 0 local_point.z

/-- Intersectable.local_normal_at_triangle from intersectable.rs. -/
def local_normal_at_triangle (i : Intersectable) (_local_point : Point) : Point :=
  i.normal

/-- Intersectable.local_normal_at dispatch from intersectable.rs: the
wildcard arm (Triangle and Group) returns the zero vector. -/
def local_normal_at (i : Intersectable) (pt : Point) : Point :=
  match i.intersectable_type with
  | IntersectableType.Cube => i.local_normal_at_cube pt
  | IntersectableType.Plane => i.local_normal_at_plane pt
  | IntersectableType.Sphere => i.local_normal_at_sphere pt
  | _ => vector 0 0 0

/-- Intersectable.check_axis from intersectable.rs (cube slab test). -/
def check_axis (_i : Intersectable) (origin direction : ℚ) : ℚ × ℚ :=
  let tmin_numerator := -1 - origin
  let tmax_numerator := 1 - origin
  let tmin := if |direction| ≥ EPSILON then tmin_numerator / direction
    else tmin_numerator * INFINITY
  let tmax := if |direction| ≥ EPSILON then tmax_numerator / direction
    else tmax_numerator * INFINITY
  if tmin > tmax then (tmax, tmin) else (tmin, tmax)

end Intersectable

/-- Shape from shape.rs, without the parent back-reference: every shape in
every claim scenario has parent None, and the functions below that recurse
through the parent in the source (world_to_object, normal_to_world) are
embedded as their parent-None branch. -/
structure Shape where
  transform : Matrix4
  material : Material
  intersectable : Intersectable
  deriving DecidableEq

namespace Shape

/-- Shape::sphere from shape.rs. -/
def sphere : Shape := ⟨IDENTITY_MATRIX, Material.new, Intersectable.sphere⟩

/-- Shape::glass_sphere from shape.rs: a sphere whose material is
Material::new with refractive_index 1, transparency 1, specular 1,
shininess 300, diffuse 0 and a solid white pattern. -/
def glass_sphere : Shape :=
  ⟨IDENTITY_MATRIX,
   { Material.new with
      refractive_index := 1.0
      transparency := 1.0
      specular := 1.0
      shininess := 300.0
      diffuse := 0.0
      pattern := Patternable.solid Color.white },
   Intersectable.sphere⟩

/-- Shape::plane from shape.rs. -/
def plane : Shape := ⟨IDENTITY_MATRIX, Material.new, Intersectable.plane⟩

/-- Shape::cube from shape.rs. -/
def cube : Shape := ⟨IDENTITY_MATRIX, Material.new, Intersectable.cube⟩

/-- Shape::triangle from shape.rs. -/
def triangle (a b c : Point) : Shape :=
  ⟨IDENTITY_MATRIX, Material.new, Intersectable.triangle a b c⟩

/-- Shape.world_to_object from shape.rs, parent-None branch: the source
first converts through the parent when one exists; with no parent the
point is used as is. -/
def world_to_object (s : Shape) (world_point : Point) : Point :=
  s.transform.inverseD.multiply_point world_point

/-- Shape.normal_to_world from shape.rs, parent-None branch: apply the
inverse transpose of the transform, zero the w component, and normalize. -/
def normal_to_world (s : Shape) (normal : Point) : Point :=
  let local_normal := s.transform.inverseD.transpose.multiply_point normal
  let local_normal := { local_normal with w := 0 }
  local_normal.normalize

/-- Shape.normal_at from shape.rs. -/
def normal_at (s : Shape) (world_point : Point) : Point :=
  let local_point := s.transform.inverseD.multiply_point world_point
  let local_normal := s.intersectable.local_normal_at local_point
  s.normal_to_world local_normal

/-- PartialEq for Shape from shape.rs: the transforms are compared within
epsilon, and the material comparison compares the material of self with
itself, so the materials of the two shapes never influence the result. -/
def shape_equal (a b : Shape) : Bool :=
  a.transform.equal b.transform && a.material.equal a.material

end Shape

/-- Intersection from intersection.rs: a t together with the shape hit. -/
structure Intersection where
  object : Shape
  t : ℚ
  deriving DecidableEq

/-- Derived PartialEq for Intersection from intersection.rs: f64 equality
on t (exact equality in this model) and Shape PartialEq on the object. -/
def inter_equal (a b : Intersection) : Bool :=
  Shape.shape_equal a.object b.object && a.t = b.t

namespace Intersectable

/-- Intersectable.local_intersect_sphere from intersectable.rs. -/
def local_intersect_sphere (_i : Intersectable) (ray : Ray)
    (object : Shape) : List Intersection :=
  let shape_to_ray := ray.origin.sub (point 0 0 0)
  let a := ray.direction.dot ray.direction
  let b := ray.direction.dot shape_to_ray * 2
  let c := shape_to_ray.dot shape_to_ray - 1
  let discriminant := b ^ 2 - 4 * a * c
  if discriminant < 0 then []
  else
    [⟨object, (-b - sqrtQ discriminant) / (2 * a)⟩,
     ⟨object, (-b + sqrtQ discriminant) / (2 * a)⟩]

/-- Intersectable.local_intersect_plane from intersectable.rs. -/
def local_intersect_plane (_i : Intersectable) (ray : Ray)
    (object : Shape) : List Intersection :=
  if |ray.direction.y| < EPSILON then []
  else [⟨object, -ray.origin.y / ray.direction.y⟩]

/-- Intersectable.local_intersect_cube from intersectable.rs. -/
def local_intersect_cube (i : Intersectable) (ray : Ray)
    (object : Shape) : List Intersection :=
  let xs := i.check_axis ray.origin.x ray.direction.x
  let ys := i.check_axis ray.origin.y ray.direction.y
  let zs := i.check_axis ray.origin.z ray.direction.z
  let tmin := maxList [xs.1, ys.1, zs.1]
  let tmax := minList [xs.2, ys.2, zs.2]
  if tmin > tmax then []
  else [⟨object, tmin⟩, ⟨object, tmax⟩]

/-- Intersectable.local_intersect_triangle from intersectable.rs: the
Moller-Trumbore intersection, rejecting a determinant within EPSILON of
zero and barycentric coordinates with u outside the unit interval, v
negative or u + v above one. -/
def local_intersect_triangle (i : Intersectable) (ray : Ray)
    (object : Shape) : List Intersection :=
  let dir_cross_e2 := ray.direction.cross i.e2
  let det := i.e1.dot dir_cross_e2
  if |det| < EPSILON then []
  else
    let f := 1 / det
    let p1_to_origin := ray.origin.sub i.p1
    let u := f * p1_to_origin.dot dir_cross_e2
    if u < 0 ∨ u > 1 then []
    else
      let origin_cross_e1 := p1_to_origin.cross i.e1
      let v := f * ray.direction.dot origin_cross_e1
      if v < 0 ∨ u + v > 1 then []
      else [⟨object, f * i.e2.dot origin_cross_e1⟩]

/-- Intersectable.local_intersect dispatch from intersectable.rs: the
match covers Cube, Sphere and Plane, and every other kind, including
Triangle and Group, falls into the wildcard arm and yields no
intersections; local_intersect_triangle is never called by the source. -/
def local_intersect (i : Intersectable) (ray : Ray)
    (object : Shape) : List Intersection :=
  match i.intersectable_type with
  | IntersectableType.Cube => i.local_intersect_cube ray object
  | IntersectableType.Sphere => i.local_intersect_sphere ray object
  | IntersectableType.Plane => i.local_intersect_plane ray object
  | _ => []

end Intersectable

namespace Patternable

/-- Patternable.color_at_object_solid from patternable.rs. -/
def color_at_object_solid (p : Patternable) (_object : Shape) (_pt : Point) : Color :=
  p.color

/-- Patternable.color_at_object_gradient from patternable.rs. -/
def color_at_object_gradient (p : Patternable) (object : Shape) (pt : Point) : Color :=
  let local_pt := object.transform.inverseD.multiply_point pt
  let pattern_local := p.transform.inverseD.multiply_point local_pt
  p.color_at pattern_local

/-- Patternable.color_at_object_checker from patternable.rs. -/
def color_at_object_checker (p : Patternable) (object : Shape) (pt : Point) : Color :=
  let local_pt := object.transform.inverseD.multiply_point pt
  let pattern_local := p.transform.inverseD.multiply_point local_pt
  p.color_at pattern_local

/-- Patternable.color_at_object dispatch from patternable.rs. -/
def color_at_object (p : Patternable) (object : Shape) (pt : Point) : Color :=
  match p.patternable_type with
  | PatternableType.Solid => p.color_at_object_solid object pt
  | PatternableType.Gradient => p.color_at_object_gradient object pt
  | PatternableType.Checker => p.color_at_object_checker object pt

end Patternable

/-- PointLight from point_light.rs. -/
structure PointLight where
  intensity : Color
  position : Point
  deriving DecidableEq

namespace Material

/-- Material.lighting from material.rs: the Phong model.  Diffuse and
specular start black; when the dot of the light vector with the normal is
nonnegative the diffuse term is computed and, when the dot of the
reflected light vector with the eye is positive, so is the specular term;
in shadow only the ambient term is returned. -/
def lighting (m : Material) (light : PointLight) (position eye normal : Point)
    (in_shadow : Bool) (object : Shape) : Color :=
  let color := m.pattern.color_at_object object position
  let effective_color := color.hadamard_product light.intensity
  let ambient := effective_color.multiply_scalar m.ambient
  let lightv := (light.position.sub position).normalize
  let light_dot_normal := lightv.dot normal
  let diffuse :=
    if light_dot_normal ≥ 0 then
      (effective_color.multiply_scalar m.diffuse).multiply_scalar light_dot_normal
    else Color.black
  let specular :=
    if light_dot_normal ≥ 0 then
      let reflectv := (lightv.multiply_scalar (-1)).reflect normal
      let reflect_dot_eye := reflectv.dot eye
      if reflect_dot_eye > 0 then
        let factor := powfQ reflect_dot_eye m.shininess
        (light.intensity.multiply_scalar m.specular).multiply_scalar factor
      else Color.black
    else Color.black
  if in_shadow then ambient else (ambient.add diffuse).add specular

end Material

namespace Intersection

/-- Intersection::hit from intersection.rs: retain the intersections with
t strictly positive, then scan for the least remaining t (the first such
intersection on ties). -/
def hit (hits : List Intersection) : Option Intersection :=
  let hits := hits.filter fun x => decide (x.t > 0)
  match hits with
  | [] => none
  | h :: _ =>
    some (hits.foldl (fun best x => if x.t > 0 ∧ x.t < best.t then x else best) h)

end Intersection

/-- Precompute from intersection.rs. -/
structure Precompute where
  eyev : Point
  inside : Bool
  normalv : Point
  object : Shape
  n1 : ℚ
  n2 : ℚ
  over_point : Point
  under_point : Point
  point : Point
  reflectv : Point
  t : ℚ
  deriving DecidableEq

namespace Ray

/-- Ray.position from ray.rs. -/
def position (r : Ray) (t : ℚ) : Point :=
  r.origin.add (r.direction.multiply_scalar t)

/-- Ray.transform from ray.rs. -/
def transform (r : Ray) (transformation : Matrix4) : Ray :=
  ⟨transformation.multiply_point r.origin, transformation.multiply_point r.direction⟩

/-- Ray.intersect from ray.rs: transform the ray by the inverse of the
shape transform and dispatch to local_intersect. -/
def intersect (r : Ray) (shape : Shape) : List Intersection :=
  let ray := r.transform shape.transform.inverseD
  shape.intersectable.local_intersect ray shape

end Ray

/-- Stable insertion of an intersection into a list already sorted by t,
placing it after any element of equal t. -/
def insertByT (x : Intersection) : List Intersection → List Intersection
  | [] => [x]
  | y :: ys => if x.t < y.t then x :: y :: ys else y :: insertByT x ys

/-- Stable ascending sort by t, modelling the stable sort_by of ray.rs
with the total order of partial_cmp on rationals: elements are inserted
left to right, each after all earlier elements of equal t, which yields
exactly the output of any stable ascending sort. -/
def sortByT (xs : List Intersection) : List Intersection :=
  xs.foldl (fun acc x => insertByT x acc) []

/-- World from world.rs. -/
structure World where
  objects : List Shape
  light_source : PointLight
  deriving DecidableEq

namespace Ray

/-- Ray.intersect_world from ray.rs: concatenate the intersections of
every object and sort ascending by t. -/
def intersect_world (r : Ray) (world : World) : List Intersection :=
  sortByT (world.objects.foldl (fun acc object => acc ++ r.intersect object) [])

end Ray

/-- Containment-stack update of the precompute loop in intersection.rs:
a shape equal (by Shape PartialEq) to one already in the stack removes
every equal entry, any other shape is pushed on top (the Rust Vec push
appends, so the top of the stack is the last element). -/
def updateContainers (containers : List Shape) (obj : Shape) : List Shape :=
  if containers.any fun s => Shape.shape_equal s obj then
    containers.filter fun o => !(Shape.shape_equal o obj)
  else containers ++ [obj]

/-- Refractive index read off the top of the containment stack in the
precompute loop of intersection.rs: the last element, or 1 for an empty
stack. -/
def containersRI (containers : List Shape) : ℚ :=
  match containers.getLast? with
  | some s => s.material.refractive_index
  | none => 1

/-- One iteration of the precompute containment loop of intersection.rs,
over the state (n1, n2, containers): when the running intersection equals
self, n1 is taken from the stack top before the update for this hit and n2
from the stack top after it. -/
def n1n2Step (self : Intersection) (st : ℚ × ℚ × List Shape)
    (i : Intersection) : ℚ × ℚ × List Shape :=
  let (n1, n2, containers) := st
  let n1 := if inter_equal i self then containersRI containers else n1
  let containers := updateContainers containers i.object
  let n2 := if inter_equal i self then containersRI containers else n2
  (n1, n2, containers)

/-- The containment stack left by replaying a list of intersections from
an empty stack, per the precompute loop of intersection.rs. -/
def replayStack (xs : List Intersection) : List Shape :=
  xs.foldl (fun c i => updateContainers c i.object) []

namespace Intersection

/-- Intersection.precompute from intersection.rs.  The record is built
with the unflipped normal (in particular over_point and under_point use
it), then the list xs is replayed with the containment stack via n1n2Step;
finally the normal is flipped and inside set when it faces away from the
eye. -/
def precompute (self : Intersection) (ray : Ray) (xs : List Intersection) :
    Precompute :=
  let pt := ray.position self.t
  let normalv := self.object.normal_at pt
  let state := xs.foldl (n1n2Step self) (1, 1, [])
  let pc : Precompute :=
    { eyev := ray.direction.multiply_scalar (-1)
      inside := false
      n1 := state.1
      n2 := state.2.1
      normalv := normalv
      object := self.object
      over_point := pt.add (normalv.multiply_scalar EPSILON)
      under_point := pt.sub (normalv.multiply_scalar EPSILON)
      point := pt
      reflectv := ray.direction.reflect normalv
      t := self.t }
  if pc.normalv.dot pc.eyev < 0 then
    { pc with inside := true, normalv := pc.normalv.multiply_scalar (-1) }
  else pc

/-- Modelled from the spec: Intersection::schlick is called by
World::shade_hit but its definition is missing from intersection.rs in
this snapshot.  The spec gives the Schlick approximation: r0 is the
squared ratio of the index difference to the index sum; when n1 exceeds n2
and the squared refracted sine exceeds one the reflectance is one (total
internal reflection); otherwise the reflectance is r0 plus (1 - r0) times
the fifth power of one minus the relevant cosine (cos_i when n1 is at most
n2, the recomputed cos_t otherwise). -/
def schlick (pc : Precompute) : ℚ :=
  let cos_i := pc.eyev.dot pc.normalv
  let r0 := ((pc.n1 - pc.n2) / (pc.n1 + pc.n2)) ^ 2
  if pc.n1 > pc.n2 then
    let n := pc.n1 / pc.n2
    let sin2_t := n ^ 2 * (1 - cos_i ^ 2)
    if sin2_t > 1 then 1
    else
      let cos_t := sqrtQ (1 - sin2_t)
      r0 + (1 - r0) * (1 - cos_t) ^ 5
  else r0 + (1 - r0) * (1 - cos_i) ^ 5

end Intersection

namespace World

/-- World::new from world.rs: the default world of two concentric spheres
and a white light at (-10, 10, -10). -/
def new : World :=
  { objects :=
      [⟨IDENTITY_MATRIX,
        { ambient := 0.1
          diffuse := 0.7
          pattern := Patternable.solid (Color.new 0.8 1.0 0.6)
          reflective := 0.0
          refractive_index := 1.0
          shininess := 200.0
          specular := 0.2
          transparency := 0.0 },
        Intersectable.sphere⟩,
       ⟨Matrix4.scaling 0.5 0.5 0.5, Material.new, Intersectable.sphere⟩]
    light_source := ⟨Color.new 1 1 1, point (-10) 10 (-10)⟩ }

/-- World.is_shadowed from world.rs: cast a ray from the point toward the
light and report a hit strictly closer than the light. -/
def is_shadowed (w : World) (pt : Point) : Bool :=
  let from_object_to_light_source := w.light_source.position.sub pt
  let distance := from_object_to_light_source.magnitude
  let ray : Ray := ⟨pt, from_object_to_light_source.normalize⟩
  match Intersection.hit (ray.intersect_world w) with
  | some h => h.t < distance
  | none => false

/-- Body shared by the two fuel cases of World.color_at below: the source
recursion of color_at, shade_hit, reflected_color and refracted_color with
the recursive color_at call abstracted as recur.  The recursive calls of
the source happen at remaining - 1 and only when remaining is nonzero, so
color_at below instantiates recur with the run at the predecessor fuel
(and, at fuel zero, with a function that is never reached). -/
def color_at_body (w : World) (recur : Ray → Color) (ray : Ray)
    (remaining : Nat) : Color :=
  let hits := ray.intersect_world w
  match hits with
  | [] => Color.black
  | first :: _ =>
    let pc := first.precompute ray hits
    let shadowed := w.is_shadowed pc.over_point
    let surface_color := pc.object.material.lighting w.light_source pc.point
      pc.eyev pc.normalv shadowed pc.object
    let reflected :=
      if pc.object.material.reflective = 0 ∨ remaining = 0 then Color.black
      else (recur ⟨pc.over_point, pc.reflectv⟩).multiply_scalar
        pc.object.material.reflective
    let refracted :=
      if remaining = 0 then Color.black
      else if pc.object.material.transparency = 0 then Color.black
      else
        let n_ratio := pc.n2 / pc.n1
        let cos_i := pc.normalv.dot pc.eyev
        let sin2_t := n_ratio ^ 2 * (1 - cos_i ^ 2)
        if sin2_t > 1 then Color.black
        else
          let cos_t := sqrtQ (1 - sin2_t)
          let direction := (pc.normalv.multiply_scalar (n_ratio * cos_i - cos_t)).sub
            (pc.eyev.multiply_scalar n_ratio)
          (recur ⟨pc.under_point, direction⟩).multiply_scalar
            pc.object.material.transparency
    if pc.object.material.transparency > 0 ∧ pc.object.material.reflective > 0 then
      let reflectance := Intersection.schlick pc
      (surface_color.add (reflected.multiply_scalar reflectance)).add
        (refracted.multiply_scalar (1 - reflectance))
    else (surface_color.add reflected).add refracted

/-- World.color_at from world.rs, with the recursion depth as a natural
number (the source uses an i32 that every caller keeps nonnegative).  The
source returns black when intersect_world is empty and otherwise
shade_hit of the precompute of hits[0], the first element of the sorted
list; the theorem color_at_eq below restates this via the standalone
shade_hit definition. -/
def color_at (w : World) (ray : Ray) : Nat → Color
  | 0 => color_at_body w (fun _ => Color.black) ray 0
  | n + 1 => color_at_body w (fun r => color_at w r n) ray (n + 1)

/-- World.reflected_color from world.rs: black for a non-reflective
material or at depth zero, otherwise the color along the reflection ray
from over_point at the decremented depth, scaled by the reflectivity. -/
def reflected_color (w : World) (pc : Precompute) (remaining : Nat) : Color :=
  if pc.object.material.reflective = 0 ∨ remaining = 0 then Color.black
  else
    let ray : Ray := ⟨pc.over_point, pc.reflectv⟩
    let color := color_at w ray (remaining - 1)
    color.multiply_scalar pc.object.material.reflective

/-- World.refracted_color from world.rs: black at depth zero or for an
opaque material; the source computes n_ratio as n2 divided by n1, tests
sin2_t for total internal reflection, and otherwise recurses from
under_point along the refracted direction and scales by transparency. -/
def refracted_color (w : World) (pc : Precompute) (remaining : Nat) : Color :=
  if remaining = 0 then Color.black
  else if pc.object.material.transparency = 0 then Color.black
  else
    let n_ratio := pc.n2 / pc.n1
    let cos_i := pc.normalv.dot pc.eyev
    let sin2_t := n_ratio ^ 2 * (1 - cos_i ^ 2)
    if sin2_t > 1 then Color.black
    else
      let cos_t := sqrtQ (1 - sin2_t)
      let direction := (pc.normalv.multiply_scalar (n_ratio * cos_i - cos_t)).sub
        (pc.eyev.multiply_scalar n_ratio)
      (color_at w ⟨pc.under_point, direction⟩ (remaining - 1)).multiply_scalar
        pc.object.material.transparency

/-- World.shade_hit from world.rs: the surface color from lighting with
the shadow test at over_point, plus the reflected and refracted
contributions, Schlick-blended when the material is both reflective and
transparent. -/
def shade_hit (w : World) (pc : Precompute) (remaining : Nat) : Color :=
  let shadowed := w.is_shadowed pc.over_point
  let surface_color := pc.object.material.lighting w.light_source pc.point
    pc.eyev pc.normalv shadowed pc.object
  let reflected := reflected_color w pc remaining
  let refracted := refracted_color w pc remaining
  if pc.object.material.transparency > 0 ∧ pc.object.material.reflective > 0 then
    let reflectance := Intersection.schlick pc
    (surface_color.add (reflected.multiply_scalar reflectance)).add
      (refracted.multiply_scalar (1 - reflectance))
  else (surface_color.add reflected).add refracted

/-- The fueled color_at agrees with the source decomposition: black when
intersect_world yields nothing, otherwise shade_hit of the precompute of
the first element of the sorted intersection list. -/
theorem color_at_eq (w : World) (ray : Ray) (remaining : Nat) :
    color_at w ray remaining =
      match ray.intersect_world w with
      | [] => Color.black
      | first :: rest =>
        shade_hit w (first.precompute ray (first :: rest)) remaining := by
  cases remaining with
  | zero =>
    simp only [color_at, color_at_body, shade_hit, reflected_color, refracted_color]
    cases ray.intersect_world w with
    | nil => rfl
    | cons first rest => simp
  | succ n =>
    simp only [color_at, color_at_body, shade_hit, reflected_color, refracted_color]
    cases ray.intersect_world w with
    | nil => rfl
    | cons first rest => simp

/-- Comparison definition for the refraction claim, following the spec
sentence word for word: zero if transparency or remaining depth is zero;
n_ratio = n1 / n2, cos_i = dot(normal, eye), sin2_t = n_ratio^2 * (1 -
cos_i^2); black on total internal reflection (sin2_t above one); otherwise
cast from under_point along normal * (n_ratio * cos_i - cos_t) - eye *
n_ratio, recurse through color_at with the depth decremented, and scale by
the transparency.  It differs from World.refracted_color above only in the
orientation of the index ratio. -/
def refracted_color_per_spec (w : World) (pc : Precompute) (remaining : Nat) : Color :=
  if remaining = 0 then Color.black
  else if pc.object.material.transparency = 0 then Color.black
  else
    let n_ratio := pc.n1 / pc.n2
    let cos_i := pc.normalv.dot pc.eyev
    let sin2_t := n_ratio ^ 2 * (1 - cos_i ^ 2)
    if sin2_t > 1 then Color.black
    else
      let cos_t := sqrtQ (1 - sin2_t)
      let direction := (pc.normalv.multiply_scalar (n_ratio * cos_i - cos_t)).sub
        (pc.eyev.multiply_scalar n_ratio)
      (World.color_at w ⟨pc.under_point, direction⟩ (remaining - 1)).multiply_scalar
        pc.object.material.transparency

end World

/-!
Concrete scenes, taken from the regression tests of the repository and
from the spec scenarios named by the claims.
-/

/-- Helper of the shape.rs test suite: a glass sphere with the given
transform and refractive index. -/
def glass_sphere_at (t : Matrix4) (r : ℚ) : Shape :=
  { Shape.glass_sphere with
      transform := t
      material := { Shape.glass_sphere.material with refractive_index := r } }

/-- Outer sphere of the canonical three-overlapping-glass-spheres
scenario: scaled by two, refractive index 1.5. -/
def glassA : Shape := glass_sphere_at (Matrix4.scaling 2 2 2) 1.5

/-- Middle sphere: translated by (0, 0, -0.25), refractive index 2. -/
def glassB : Shape := glass_sphere_at (Matrix4.translation 0 0 (-0.25)) 2

/-- Inner sphere: translated by (0, 0, 0.25), refractive index 2.5. -/
def glassC : Shape := glass_sphere_at (Matrix4.translation 0 0 0.25) 2.5

/-- The canonical ray through the three glass spheres. -/
def canonicalRay : Ray := ⟨point 0 0 (-4), vector 0 0 1⟩

/-- The six ordered intersections of the canonical ray with the three
glass spheres, as in the shape.rs test. -/
def canonicalXs : List Intersection :=
  [⟨glassA, 2⟩, ⟨glassB, 2.75⟩, ⟨glassC, 3.25⟩,
   ⟨glassB, 4.75⟩, ⟨glassC, 5.25⟩, ⟨glassA, 6⟩]

/-- Lower mirror plane of the infinite-recursion test of world.rs:
reflective 1, translated to y = -1. -/
def mirrorLower : Shape :=
  { Shape.plane with
      transform := Matrix4.translation 0 (-1) 0
      material := { Material.new with reflective := 1 } }

/-- Upper mirror plane: reflective 1, translated to y = 1. -/
def mirrorUpper : Shape :=
  { Shape.plane with
      transform := Matrix4.translation 0 1 0
      material := { Material.new with reflective := 1 } }

/-- The scene of the infinite-recursion regression test of world.rs: the
default world with the light moved to the origin and the two mirror
planes appended. -/
def mirrorWorld : World :=
  { objects := World.new.objects ++ [mirrorLower, mirrorUpper]
    light_source := ⟨Color.new 1 1 1, point 0 0 0⟩ }

/-- The ray of the infinite-recursion test: from the origin straight up. -/
def mirrorRay : Ray := ⟨point 0 0 0, vector 0 1 0⟩

/-- A world holding only the two facing mirrors and the light between
them: the pure two-infinite-mirrors scene of the termination claim. -/
def twoMirrorWorld : World :=
  { objects := [mirrorLower, mirrorUpper]
    light_source := ⟨Color.new 1 1 1, point 0 0 0⟩ }

/-- Floor plane of the refraction witness scene: fully ambient so its
surface color is exactly its pattern color. -/
def ambientFloor : Shape :=
  { Shape.plane with
      material := { Material.new with ambient := 1, diffuse := 0, specular := 0 } }

/-- World for the refraction witness: the ambient floor and a light placed
a rational distance straight above the refracted hit point. -/
def refractionWorld : World :=
  { objects := [ambientFloor]
    light_source := ⟨Color.new 1 1 1, point (-3) 10.00001 0⟩ }

/-- Precompute record for the refraction claim: leaving glass of index 1.5
into glass of index 2.0 with cos_i = 3/5, on a fully transparent object,
refracting from the point (0, 4, 0). -/
def refractionPc : Precompute :=
  { eyev := vector (4/5) (3/5) 0
    inside := false
    normalv := vector 0 1 0
    object := Shape.glass_sphere
    n1 := 1.5
    n2 := 2.0
    over_point := point 0 4 0
    under_point := point 0 4 0
    point := point 0 4 0
    reflectv := vector 0 0 0
    t := 1 }

/-- The triangle of the shape.rs tests. -/
def testTriangle : Shape :=
  Shape.triangle (point 0 1 0) (point (-1) 0 0) (point 1 0 0)

/-- The ray of the commented-out triangle hit test of shape.rs: it points
at the interior of the triangle from z = -2. -/
def triangleRay : Ray := ⟨point 0 0.5 (-2), vector 0 0 1⟩

/-- The 3x3 identity, a matrix whose (1, 1) minor is one. -/
def id3 : Matrix3 := ⟨[[1, 0, 0], [0, 1, 0], [0, 0, 1]]⟩

/-- A matrix whose determinant is nonzero yet within EPSILON of zero: a
scaling by two to the minus fortieth power, exactly representable in f64. -/
def nearSingular : Matrix4 := Matrix4.scaling (1 / 2 ^ 40) 1 1

/-- First shape of the equality claim: unit sphere, refractive index 1.5,
transparent. -/
def shapeRI15 : Shape :=
  { Shape.sphere with
      material := { Material.new with refractive_index := 1.5, transparency := 1 } }

/-- Second shape of the equality claim: identical transform, different
material (refractive index 2.5). -/
def shapeRI25 : Shape :=
  { Shape.sphere with
      material := { Material.new with refractive_index := 2.5, transparency := 1 } }

/-- The inner half-scale sphere of the default world, the object of the
nearest strictly positive hit in the mirror-test scene. -/
def innerSphere : Shape := ⟨Matrix4.scaling 0.5 0.5 0.5, Material.new, Intersectable.sphere⟩

/-- The intersection list of the equality claim: a ray passing twice
through each of the two materially different but equal-comparing shapes. -/
def c10xs : List Intersection :=
  [⟨shapeRI15, 1⟩, ⟨shapeRI25, 2⟩, ⟨shapeRI15, 3⟩, ⟨shapeRI25, 4⟩]

/-- The same list with every occurrence of the second shape replaced by
the first. -/
def c10xsMerged : List Intersection :=
  [⟨shapeRI15, 1⟩, ⟨shapeRI15, 2⟩, ⟨shapeRI15, 3⟩, ⟨shapeRI15, 4⟩]

/-- The ray of the equality-claim scenario. -/
def c10ray : Ray := ⟨point 0 0 0, vector 0 0 1⟩

/-!
General lemmas.
-/

/-- The kernel epsilon is positive. -/
theorem EPSILON_pos : (0 : ℚ) < EPSILON := by decide

/-- The epsilon comparison is reflexive. -/
theorem equalQ_self (a : ℚ) : equalQ a a = true := by
  simp only [equalQ, sub_self, abs_zero, decide_eq_true_eq]
  exact EPSILON_pos

/-- Material.equal is reflexive. -/
theorem material_equal_self (m : Material) : m.equal m = true := by
  simp [Material.equal, equalQ_self]

/-- Matrix4.equal is reflexive. -/
theorem matrix4_equal_self (m : Matrix4) : m.equal m = true := by
  simp [Matrix4.equal, equalQ_self]

/-- Shape PartialEq is reflexive. -/
theorem Shape.shape_equal_self (s : Shape) : Shape.shape_equal s s = true := by
  simp [Shape.shape_equal, matrix4_equal_self, material_equal_self]

/-- Intersection PartialEq is reflexive. -/
theorem inter_equal_self (i : Intersection) : inter_equal i i = true := by
  simp [inter_equal, Shape.shape_equal_self]

/-- The minimum scan of Intersection::hit: the fold either keeps its seed
or returns a list element, never exceeds the seed t, and is at most the t
of every positive-t element of the list. -/
theorem hit_fold_spec (l : List Intersection) (b : Intersection) :
    (l.foldl (fun best x => if x.t > 0 ∧ x.t < best.t then x else best) b = b ∨
     l.foldl (fun best x => if x.t > 0 ∧ x.t < best.t then x else best) b ∈ l) ∧
    (l.foldl (fun best x => if x.t > 0 ∧ x.t < best.t then x else best) b).t ≤ b.t ∧
    ∀ x ∈ l, 0 < x.t →
      (l.foldl (fun best x => if x.t > 0 ∧ x.t < best.t then x else best) b).t ≤ x.t := by
  induction l generalizing b with
  | nil => exact ⟨Or.inl rfl, le_refl _, by simp⟩
  | cons h l ih =>
    simp only [List.foldl_cons]
    obtain ⟨hmem, hle, hmin⟩ := ih (if h.t > 0 ∧ h.t < b.t then h else b)
    refine ⟨?_, ?_, ?_⟩
    · rcases hmem with heq | hmem
      · rw [heq]
        split
        · exact Or.inr (List.mem_cons_self _ _)
        · exact Or.inl rfl
      · exact Or.inr (List.mem_cons_of_mem _ hmem)
    · refine le_trans hle ?_
      split
      · next hc => exact hc.2.le
      · exact le_rfl
    · intro x hx hxt
      rcases List.mem_cons.mp hx with rfl | hx
      · refine le_trans hle ?_
        split
        · exact le_rfl
        · next hc =>
          have : ¬x.t < b.t := fun hlt => hc ⟨hxt, hlt⟩
          exact not_lt.mp this
      · exact hmin x hx hxt

/-- Claim C4: Intersection::hit discards every intersection with
nonpositive t and returns an intersection of minimal t among those with
strictly positive t, or none when no positive t exists; over the t values
[-1, 1] it returns the t = 1 intersection and over [-1, -2] it returns
none. -/
theorem hit_min_positive (xs : List Intersection) :
    (Intersection.hit xs = none ↔ ∀ i ∈ xs, i.t ≤ 0) ∧
    (∀ i, Intersection.hit xs = some i →
      i ∈ xs ∧ 0 < i.t ∧ ∀ j ∈ xs, 0 < j.t → i.t ≤ j.t) ∧
    Intersection.hit [⟨Shape.sphere, -1⟩, ⟨Shape.sphere, 1⟩] =
      some ⟨Shape.sphere, 1⟩ ∧
    Intersection.hit [⟨Shape.sphere, -1⟩, ⟨Shape.sphere, -2⟩] = none := by
  refine ⟨?_, ?_, by decide, by decide⟩
  · rcases hfilter : xs.filter (fun x => decide (x.t > 0)) with _ | ⟨h, t⟩
    · simp only [Intersection.hit, hfilter]
      rw [List.filter_eq_nil_iff] at hfilter
      simp only [true_iff]
      intro i hi
      have := hfilter i hi
      simp only [decide_eq_true_eq, not_lt] at this
      exact this
    · simp only [Intersection.hit, hfilter]
      constructor
      · intro hcontra
        exact absurd hcontra (by simp)
      · intro hall
        have hh : h ∈ xs.filter (fun x => decide (x.t > 0)) := by
          rw [hfilter]; exact List.mem_cons_self _ _
        have := List.mem_filter.mp hh
        simp only [decide_eq_true_eq] at this
        exact absurd (hall h this.1) (not_le.mpr this.2)
  · intro i hi
    rcases hfilter : xs.filter (fun x => decide (x.t > 0)) with _ | ⟨h, t⟩
    · simp [Intersection.hit, hfilter] at hi
    · simp only [Intersection.hit, hfilter] at hi
      obtain ⟨hmem, _, hmin⟩ := hit_fold_spec (h :: t) h
      rw [Option.some_inj] at hi
      subst hi
      have hifil : (h :: t).foldl
          (fun best x => if x.t > 0 ∧ x.t < best.t then x else best) h ∈
          xs.filter (fun x => decide (x.t > 0)) := by
        rw [hfilter]
        rcases hmem with heq | hm
        · rw [heq]; exact List.mem_cons_self _ _
        · exact hm
      have hfmem := List.mem_filter.mp hifil
      simp only [decide_eq_true_eq] at hfmem
      refine ⟨hfmem.1, hfmem.2, ?_⟩
      intro j hj hjt
      have hjfil : j ∈ xs.filter (fun x => decide (x.t > 0)) :=
        List.mem_filter.mpr ⟨hj, by simpa using hjt⟩
      rw [hfilter] at hjfil
      exact hmin j hjfil hjt

/-- Projections of the precompute record: n1 and n2 are exactly the first
two components of the containment fold, unchanged by the final
normal-flipping step. -/
theorem precompute_n1_n2_eq (self : Intersection) (ray : Ray)
    (xs : List Intersection) :
    (self.precompute ray xs).n1 = (xs.foldl (n1n2Step self) (1, 1, [])).1 ∧
    (self.precompute ray xs).n2 = (xs.foldl (n1n2Step self) (1, 1, [])).2.1 := by
  simp only [Intersection.precompute]
  split <;> simp

/-- The containment fold over a stretch of intersections none of which
equals the target leaves n1 and n2 untouched and only replays the stack. -/
theorem n1n2_foldl_no_match (self : Intersection) (l : List Intersection)
    (h : ∀ i ∈ l, inter_equal i self = false) (a b : ℚ) (c : List Shape) :
    l.foldl (n1n2Step self) (a, b, c) =
      (a, b, l.foldl (fun acc i => updateContainers acc i.object) c) := by
  induction l generalizing c with
  | nil => rfl
  | cons x l ih =>
    simp only [List.foldl_cons]
    have hx := h x (List.mem_cons_self _ _)
    rw [show n1n2Step self (a, b, c) x = (a, b, updateContainers c x.object) from by
      simp [n1n2Step, hx]]
    exact ih (fun i hi => h i (List.mem_cons_of_mem _ hi)) _

/-- Claim C2: precompute obtains n1 and n2 by replaying the sorted
intersection list with a containment stack of shapes matched by Shape
PartialEq: writing the list as a prefix p, the target itself, and a
suffix (the target equal to no other entry), n1 is the refractive index
at the top of the stack replayed over p (one if empty) and n2 the top
after updating that stack for the target hit; and over the canonical
three-overlapping-glass-spheres list the six precomputes yield the
transition sequence (1, 1.5), (1.5, 2), (2, 2.5), (2.5, 2.5), (2.5, 1.5),
(1.5, 1). -/
theorem precompute_replays_containment_stack
    (self : Intersection) (ray : Ray) (p s : List Intersection)
    (hp : ∀ i ∈ p, inter_equal i self = false)
    (hs : ∀ i ∈ s, inter_equal i self = false) :
    ((self.precompute ray (p ++ self :: s)).n1 = containersRI (replayStack p) ∧
     (self.precompute ray (p ++ self :: s)).n2 =
       containersRI (updateContainers (replayStack p) self.object)) ∧
    (canonicalXs.map fun i =>
      ((i.precompute canonicalRay canonicalXs).n1,
       (i.precompute canonicalRay canonicalXs).n2)) =
      [(1, 1.5), (1.5, 2), (2, 2.5), (2.5, 2.5), (2.5, 1.5), (1.5, 1)] := by
  refine ⟨?_, by decide⟩
  obtain ⟨h1, h2⟩ := precompute_n1_n2_eq self ray (p ++ self :: s)
  rw [h1, h2, List.foldl_append, n1n2_foldl_no_match self p hp 1 1 [],
    List.foldl_cons,
    show n1n2Step self (1, 1, p.foldl (fun acc i => updateContainers acc i.object) []) self =
      (containersRI (replayStack p),
       containersRI (updateContainers (replayStack p) self.object),
       updateContainers (replayStack p) self.object) from by
        simp [n1n2Step, inter_equal_self, replayStack],
    n1n2_foldl_no_match self s hs]
  exact ⟨rfl, rfl⟩

/-- Witness for C2: the theorem applied at the fourth canonical
intersection, whose prefix holds the three entry hits, certifies the
(2.5, 2.5) transition there. -/
theorem precompute_replays_containment_stack_witness :
    (Intersection.precompute ⟨glassB, 4.75⟩ canonicalRay canonicalXs).n1 =
      containersRI (replayStack [⟨glassA, 2⟩, ⟨glassB, 2.75⟩, ⟨glassC, 3.25⟩]) ∧
    (Intersection.precompute ⟨glassB, 4.75⟩ canonicalRay canonicalXs).n2 =
      containersRI (updateContainers
        (replayStack [⟨glassA, 2⟩, ⟨glassB, 2.75⟩, ⟨glassC, 3.25⟩]) glassB) := by
  have h := (precompute_replays_containment_stack ⟨glassB, 4.75⟩ canonicalRay
    [⟨glassA, 2⟩, ⟨glassB, 2.75⟩, ⟨glassC, 3.25⟩] [⟨glassC, 5.25⟩, ⟨glassA, 6⟩]
    (by decide) (by decide)).1
  exact h

/-- Witness for C4: the theorem applied to the concrete list with t
values -1 and 1 certifies that the returned intersection has positive t,
belongs to the list, and has minimal t among positive entries. -/
theorem hit_min_positive_witness :
    (⟨Shape.sphere, 1⟩ : Intersection) ∈
      ([⟨Shape.sphere, -1⟩, ⟨Shape.sphere, 1⟩] : List Intersection) ∧
    (0 : ℚ) < 1 := by
  have h := (hit_min_positive [⟨Shape.sphere, -1⟩, ⟨Shape.sphere, 1⟩]).2.1
    ⟨Shape.sphere, 1⟩ (by decide)
  exact ⟨h.1, h.2.1⟩

/-- Claim C1 (failing evaluation): in the mirror regression scene of
world.rs, color_at precomputes hits[0], the first element of the sorted
list, whose t is -1, and returns the in-shadow ambient color
(0.08, 0.1, 0.06); the nearest strictly positive hit is the t = 1/2
intersection with the inner sphere, whose shade_hit value
(0.1, 0.1, 0.1) differs, so color_at does not return shade_hit of the
nearest positive hit as the claim states (the repository test for this
scene expects (1.9, 1.9, 1.9), which also disagrees with the code). -/
theorem color_at_uses_first_sorted_intersection :
    World.color_at mirrorWorld mirrorRay 10 = Color.new (2/25) (1/10) (3/50) ∧
    ((mirrorRay.intersect_world mirrorWorld).map fun i => i.t) =
      [-1, -1, -1/2, 1/2, 1, 1] ∧
    Intersection.hit (mirrorRay.intersect_world mirrorWorld) =
      some ⟨innerSphere, 1/2⟩ ∧
    World.shade_hit mirrorWorld
      (Intersection.precompute ⟨innerSphere, 1/2⟩ mirrorRay
        (mirrorRay.intersect_world mirrorWorld)) 10 =
      Color.new (1/10) (1/10) (1/10) ∧
    World.color_at mirrorWorld mirrorRay 10 ≠
      World.shade_hit mirrorWorld
        (Intersection.precompute ⟨innerSphere, 1/2⟩ mirrorRay
          (mirrorRay.intersect_world mirrorWorld)) 10 := by
  refine ⟨by decide, by decide, by decide, by decide, by decide⟩

/-- Claim C3 (failing evaluation): refracted_color computes the index
ratio as n2 divided by n1, backwards from the Snell ratio n1 / n2 of the
claim.  On a precompute that leaves glass of index 1.5 for glass of index
2.0 with cos_i = 3/5, the code ratio makes sin2_t = 256/225 exceed one,
so the code reports total internal reflection and returns black, although
a ray entering a denser medium can never totally reflect; with the
claimed ratio sin2_t = 9/25 and the refracted ray lights the white floor,
so the spec-faithful variant returns white scaled by transparency one. -/
theorem refracted_color_inverts_snell_ratio :
    World.refracted_color refractionWorld refractionPc 5 = Color.black ∧
    World.refracted_color_per_spec refractionWorld refractionPc 5 = Color.white ∧
    (refractionPc.n2 / refractionPc.n1) ^ 2 *
      (1 - (refractionPc.normalv.dot refractionPc.eyev) ^ 2) = 256/225 ∧
    (refractionPc.n1 / refractionPc.n2) ^ 2 *
      (1 - (refractionPc.normalv.dot refractionPc.eyev) ^ 2) = 9/25 := by
  refine ⟨by decide, by decide, by decide, by decide⟩

/-- Claim C6: the recursion of color_at, shade_hit, reflected_color and
refracted_color is bounded by the explicit depth counter, which every
reflective and refractive bounce strictly decreases (the embedding is
structurally recursive on it): at depth zero both recursive contributions
are black for every world and precompute, and the two-facing-mirrors
scene evaluates at depth 10 to the finite color (1.1, 1.1, 1.1). -/
theorem color_at_recursion_bounded :
    (∀ (w : World) (pc : Precompute),
      World.reflected_color w pc 0 = Color.black ∧
      World.refracted_color w pc 0 = Color.black) ∧
    World.color_at twoMirrorWorld mirrorRay 10 =
      Color.new (11/10) (11/10) (11/10) := by
  refine ⟨fun w pc => ⟨?_, ?_⟩, by decide⟩
  · rw [World.reflected_color, if_pos (Or.inr rfl)]
  · rfl

/-- Claim C7 (failing evaluation): the local_intersect dispatch of
intersectable.rs has no Triangle arm, so every triangle falls into the
wildcard and yields no intersections for every ray, although the unused
local_intersect_triangle implements the Moller-Trumbore algorithm the
claim describes and returns the single t = 2 hit on the ray of the
commented-out regression test. -/
theorem triangle_local_intersect_never_hits :
    (∀ (p1 p2 p3 : Point) (ray : Ray) (s : Shape),
      (Intersectable.triangle p1 p2 p3).local_intersect ray s = []) ∧
    testTriangle.intersectable.local_intersect_triangle triangleRay testTriangle =
      [⟨testTriangle, 2⟩] ∧
    triangleRay.intersect testTriangle = [] := by
  exact ⟨fun p1 p2 p3 ray s => rfl, by decide, by decide⟩

/-- Claim C5: lighting computes the effective color as the componentwise
product of the pattern color at the point with the light intensity and
always includes the ambient term effective_color times material.ambient;
in shadow it returns the ambient term alone, and otherwise it adds a
diffuse and a specular term that are zero, never negative, when the
light-normal dot product, respectively the reflection-eye dot product, is
not positive. -/
theorem lighting_phong_terms (m : Material) (light : PointLight)
    (position eye normal : Point) (object : Shape) :
    m.lighting light position eye normal true object =
      ((m.pattern.color_at_object object position).hadamard_product
        light.intensity).multiply_scalar m.ambient ∧
    ∃ diffuse specular : Color,
      m.lighting light position eye normal false object =
        ((((m.pattern.color_at_object object position).hadamard_product
          light.intensity).multiply_scalar m.ambient).add diffuse).add specular ∧
      (((light.position.sub position).normalize).dot normal ≤ 0 →
        diffuse = Color.black) ∧
      ((((((light.position.sub position).normalize).multiply_scalar (-1)).reflect
        normal).dot eye ≤ 0) → specular = Color.black) ∧
      (0 ≤ ((light.position.sub position).normalize).dot normal →
        diffuse = (((m.pattern.color_at_object object position).hadamard_product
          light.intensity).multiply_scalar m.diffuse).multiply_scalar
          (((light.position.sub position).normalize).dot normal)) ∧
      (0 ≤ ((light.position.sub position).normalize).dot normal →
        0 < (((((light.position.sub position).normalize).multiply_scalar
          (-1)).reflect normal).dot eye) →
        specular = (light.intensity.multiply_scalar m.specular).multiply_scalar
          (powfQ (((((light.position.sub position).normalize).multiply_scalar
            (-1)).reflect normal).dot eye) m.shininess)) := by
  refine ⟨rfl, ?_⟩
  refine ⟨(if ((light.position.sub position).normalize).dot normal ≥ 0 then
      (((m.pattern.color_at_object object position).hadamard_product
        light.intensity).multiply_scalar m.diffuse).multiply_scalar
        (((light.position.sub position).normalize).dot normal)
    else Color.black),
    (if ((light.position.sub position).normalize).dot normal ≥ 0 then
      (if (((((light.position.sub position).normalize).multiply_scalar
          (-1)).reflect normal).dot eye) > 0 then
        (light.intensity.multiply_scalar m.specular).multiply_scalar
          (powfQ (((((light.position.sub position).normalize).multiply_scalar
            (-1)).reflect normal).dot eye) m.shininess)
      else Color.black)
    else Color.black), rfl, ?_, ?_, ?_, ?_⟩
  · intro h
    by_cases hge : ((light.position.sub position).normalize).dot normal ≥ 0
    · rw [if_pos hge, le_antisymm h hge]
      simp [Color.multiply_scalar, Color.black]
    · rw [if_neg hge]
  · intro h
    split_ifs with h1 h2
    · exact absurd h2 (not_lt.mpr h)
    · rfl
    · rfl
  · intro h
    rw [if_pos h]
  · intro h h2
    rw [if_pos h, if_pos h2]

/-- Witness for C5: the theorem applied with the light directly behind
the surface (the fifth lighting regression test of material.rs): both dot
products are -1, so the diffuse and specular terms vanish and the result
is the ambient color (0.1, 0.1, 0.1). -/
theorem lighting_phong_terms_witness :
    Material.new.lighting ⟨Color.white, point 0 0 10⟩ (point 0 0 0)
      (vector 0 0 (-1)) (vector 0 0 (-1)) false Shape.sphere =
      Color.new 0.1 0.1 0.1 := by
  obtain ⟨-, d, sp, heq, hd, hsp, -, -⟩ := lighting_phong_terms Material.new
    ⟨Color.white, point 0 0 10⟩ (point 0 0 0) (vector 0 0 (-1)) (vector 0 0 (-1))
    Shape.sphere
  rw [heq, hd (by decide), hsp (by decide)]
  decide

/-- Claim C8 (failing evaluation for the 3x3 case): the 4x4 cofactor
carries the sign (-1) to the power col + row for every matrix and pair of
indices, but the 3x3 cofactor condition is written col + row % 2 == 0,
which Rust parses as col + (row % 2) == 0: at (1, 1) on the identity the
minor is 1 yet the code returns -1, the opposite of
(-1) to the power 1 + 1 times the minor. -/
theorem cofactor_sign_pattern :
    (∀ (m : Matrix4) (col row : Nat),
      m.cofactor col row = (-1 : ℚ) ^ (col + row) * m.minor col row) ∧
    id3.cofactor 1 1 = -1 ∧
    id3.minor 1 1 = 1 ∧
    id3.cofactor 1 1 ≠ (-1 : ℚ) ^ (1 + 1) * id3.minor 1 1 := by
  refine ⟨?_, by decide, by decide, by decide⟩
  intro m col row
  simp only [Matrix4.cofactor]
  split_ifs with h
  · rw [(Nat.even_iff.mpr h).neg_one_pow, one_mul]
  · rw [(Nat.odd_iff.mpr (Nat.mod_two_ne_zero.mp h)).neg_one_pow]
    ring

/-- Original statement of claim C9 refuted: this matrix has determinant
two to the minus fortieth power, within EPSILON of zero yet nonzero, and
inverse returns a value instead of failing. -/
theorem inverse_succeeds_within_epsilon_of_zero :
    |nearSingular.determinant| < EPSILON ∧
    nearSingular.determinant ≠ 0 ∧
    (nearSingular.inverse).isSome = true := by
  refine ⟨by decide, by decide, by decide⟩

/-- Claim C9 as amended: inverse fails (returns none, a panic in the
source) exactly when the determinant is exactly zero; for any nonzero
determinant, even one within EPSILON of zero, it returns normally, and on
the near-singular matrix the returned value is the true inverse. -/
theorem inverse_fails_iff_determinant_exactly_zero :
    (∀ m : Matrix4, m.inverse = none ↔ m.determinant = 0) ∧
    nearSingular.inverse = some (Matrix4.scaling (2 ^ 40) 1 1) ∧
    Matrix4.multiply nearSingular (Matrix4.scaling (2 ^ 40) 1 1) =
      IDENTITY_MATRIX := by
  refine ⟨?_, by decide, by decide⟩
  intro m
  by_cases h : m.determinant = 0
  · simp [Matrix4.inverse, Matrix4.invertible, h]
  · simp [Matrix4.inverse, Matrix4.invertible, h]

/-- Witness for the amended C9: by the theorem at the identity matrix,
whose determinant is nonzero, inverse does not fail. -/
theorem inverse_fails_iff_determinant_exactly_zero_witness :
    IDENTITY_MATRIX.inverse ≠ none := by
  have h := (inverse_fails_iff_determinant_exactly_zero).1 IDENTITY_MATRIX
  intro hn
  have h0 := h.mp hn
  revert h0
  decide

/-- Claim C10: Shape PartialEq reduces to the epsilon comparison of the
transforms, because the material conjunct compares the material of the
left shape with itself; two shapes with equal transforms but different
materials therefore compare equal, and the containment replay of
precompute, which matches by this equality, cannot tell them apart: with
two such spheres of refractive indices 1.5 and 2.5, entering the second
sphere yields n2 = 1 (the stack pops the first sphere, mistaking it for
the second) instead of 2.5, exactly the n1 and n2 produced when every
occurrence of the second sphere is replaced by the first. -/
theorem shape_equality_ignores_material :
    (∀ a b : Shape, Shape.shape_equal a b = a.transform.equal b.transform) ∧
    Shape.shape_equal shapeRI15 shapeRI25 = true ∧
    shapeRI15.material ≠ shapeRI25.material ∧
    (Intersection.precompute ⟨shapeRI25, 2⟩ c10ray c10xs).n1 = 1.5 ∧
    (Intersection.precompute ⟨shapeRI25, 2⟩ c10ray c10xs).n2 = 1 ∧
    (Intersection.precompute ⟨shapeRI25, 2⟩ c10ray c10xs).n2 ≠
      shapeRI25.material.refractive_index ∧
    ((Intersection.precompute ⟨shapeRI25, 2⟩ c10ray c10xs).n1,
     (Intersection.precompute ⟨shapeRI25, 2⟩ c10ray c10xs).n2) =
    ((Intersection.precompute ⟨shapeRI15, 2⟩ c10ray c10xsMerged).n1,
     (Intersection.precompute ⟨shapeRI15, 2⟩ c10ray c10xsMerged).n2) := by
  refine ⟨?_, by decide, by decide, by decide, by decide, by decide, by decide⟩
  intro a b
  simp [Shape.shape_equal, material_equal_self]

end RayTracer
